import Mathlib

/-!
Shallow embedding of the digitalis playback command actor
(src/bin/server.rs: `AudioThreadState` and its command handling) together
with the shared data types (src/lib.rs: `Track`, `PlaybackStatus`).

Modelling conventions:
* Monotonic `Instant`s and `Duration`s are nanosecond counts (`Nat`);
  `Duration::as_millis() as u64` becomes `/ 1000000 % 2^64`.
* The rodio `Sink` is an external opaque collaborator; it is modelled by
  the two pieces of its state the server observes or drives: the queue of
  appended sources and the paused flag.  `play`/`pause` clear/set the flag,
  `stop` empties the queue and leaves the flag alone, matching rodio's
  documented behaviour ("Stops the sink by emptying the queue"); a freshly
  created sink is unpaused.
* `f32` is modelled by `F32`: NaN, the two infinities, and finite values
  as rationals.  Rust's `f32::clamp(min, max)` is the sequential
  `if x < min ... if x > max ...`, which propagates NaN.
* The outcome of `File::open` / `Decoder::new` in the Play command is an
  environment input (`PlayResult`), since the filesystem and the decoder
  are outside the actor.
-/

structure Track where
  path : String
  title : String
deriving DecidableEq, Repr

structure Sink where
  queue : List Nat
  paused : Bool
deriving DecidableEq, Repr

def Sink.play (sk : Sink) : Sink := { sk with paused := false }

def Sink.pause (sk : Sink) : Sink := { sk with paused := true }

def Sink.stop (sk : Sink) : Sink := { sk with queue := [] }

def Sink.append (sk : Sink) (source : Nat) : Sink := { sk with queue := sk.queue ++ [source] }

inductive F32 where
  | nan
  | negInf
  | posInf
  | val (q : ℚ)
deriving DecidableEq, Repr

def F32.lt : F32 → F32 → Bool
  | .nan, _ => false
  | _, .nan => false
  | .negInf, .negInf => false
  | .negInf, _ => true
  | _, .negInf => false
  | .posInf, _ => false
  | .val _, .posInf => true
  | .val a, .val b => decide (a < b)

def F32.le : F32 → F32 → Bool
  | .nan, _ => false
  | _, .nan => false
  | .negInf, _ => true
  | _, .negInf => false
  | _, .posInf => true
  | .posInf, _ => false
  | .val a, .val b => decide (a ≤ b)

/-- Rust `f32::clamp`: `if self < min { min } else ... if self > max { max }`;
NaN input falls through both comparisons and is returned unchanged. -/
def F32.clamp (x lo hi : F32) : F32 :=
  let y := if F32.lt x lo then lo else x
  if F32.lt hi y then hi else y

/-- `x` lies in `[0, 1]` under IEEE comparison (false for NaN). -/
def F32.inUnit (x : F32) : Prop :=
  F32.le (F32.val 0) x = true ∧ F32.le x (F32.val 1) = true

instance (x : F32) : Decidable (F32.inUnit x) := by
  unfold F32.inUnit
  infer_instance

structure PlaybackStatus where
  playing : Bool
  track : Option Track
  position_ms : Nat
  duration_ms : Option Nat
  volume : F32
deriving DecidableEq, Repr

/-- `impl Default for PlaybackStatus` (src/lib.rs). -/
def PlaybackStatus.default : PlaybackStatus :=
  { playing := false
    track := none
    position_ms := 0
    duration_ms := none
    volume := F32.val 1 }

/-- The fallback status built by the `get_status` route when the actor
cannot be reached (send failure or dropped reply channel). -/
def statusFallback : PlaybackStatus :=
  { playing := false
    track := none
    position_ms := 0
    duration_ms := none
    volume := F32.val 1 }

inductive PlayResult where
  | openErr
  | decodeErr
  | ok (source : Nat)
deriving DecidableEq, Repr

inductive AudioCommand where
  | play (res : PlayResult) (track : Option Track)
  | pause
  | resume
  | stop
  | seek (position_ms : Nat)
  | setVolume (v : F32)
  | getStatus
deriving DecidableEq, Repr

structure AudioThreadState where
  sink : Option Sink
  current_track : Option Track
  start_time : Option Nat
  pause_offset : Nat
  volume : F32
deriving DecidableEq, Repr

/-- `AudioThreadState::new` after a successful `OutputStream`/`Sink` setup:
the sink exists, is unpaused and empty; no track, no start time, zero
pause offset, volume 1.0. -/
def AudioThreadState.new : AudioThreadState :=
  { sink := some { queue := [], paused := false }
    current_track := none
    start_time := none
    pause_offset := 0
    volume := F32.val 1 }

/-- `AudioThreadState::position`. -/
def AudioThreadState.position (s : AudioThreadState) (now : Nat) : Nat :=
  match s.start_time with
  | some start => (((now - start) + s.pause_offset) / 1000000) % 2 ^ 64
  | none => (s.pause_offset / 1000000) % 2 ^ 64

/-- `AudioThreadState::is_playing`. -/
def AudioThreadState.is_playing (s : AudioThreadState) : Bool :=
  match s.sink with
  | some sk => !sk.paused
  | none => false

/-- The `PlaybackStatus` built inline in the `GetStatus` arm of
`handle_command` and sent on the reply channel. -/
def AudioThreadState.statusSnapshot (s : AudioThreadState) (now : Nat) : PlaybackStatus :=
  { playing := s.is_playing
    track := s.current_track
    position_ms := s.position now
    duration_ms := none
    volume := s.volume }

/-- `AudioThreadState::handle_command`, with `now` the value `Instant::now()`
takes while the command is processed.  `GetStatus` leaves the state
unchanged; the snapshot it sends is `statusSnapshot`. -/
def AudioThreadState.handle_command (s : AudioThreadState) (now : Nat)
    (cmd : AudioCommand) : AudioThreadState :=
  match cmd with
  | .play res track =>
    match res with
    | .openErr => s
    | .decodeErr => s
    | .ok source =>
      match s.sink with
      | some sk =>
        { s with
          sink := some (((sk.stop).append source).play)
          current_track := track
          start_time := some now
          pause_offset := 0 }
      | none => s
  | .pause =>
    match s.sink with
    | some sk =>
      if s.is_playing then
        { s with
          sink := some sk.pause
          pause_offset :=
            match s.start_time with
            | some start => s.pause_offset + (now - start)
            | none => s.pause_offset
          start_time := none }
      else s
    | none => s
  | .resume =>
    match s.sink with
    | some sk => { s with sink := some sk.play, start_time := some now }
    | none => s
  | .stop =>
    match s.sink with
    | some sk =>
      { s with
        sink := some sk.stop
        current_track := none
        start_time := none
        pause_offset := 0 }
    | none => s
  | .seek _ => s
  | .setVolume v =>
    match s.sink with
    | some _ => { s with volume := F32.clamp v (F32.val 0) (F32.val 1) }
    | none => s
  | .getStatus => s

/-- States reachable by the actor loop from a successful startup. -/
inductive Reachable : AudioThreadState → Prop where
  | init : Reachable AudioThreadState.new
  | step (s : AudioThreadState) (now : Nat) (cmd : AudioCommand) :
      Reachable s → Reachable (s.handle_command now cmd)

/-- HTTP status returned by the `seek` route: 501 Not Implemented when the
command was delivered to the actor, 500 when the channel send failed. -/
def seekRouteStatus (delivered : Bool) : Nat :=
  if delivered then 501 else 500

example : AudioThreadState.new.position 5 = 0 := by decide
example : AudioThreadState.new.is_playing = true := by decide
example : F32.clamp F32.nan (F32.val 0) (F32.val 1) = F32.nan := by decide
example : F32.clamp (F32.val 2) (F32.val 0) (F32.val 1) = F32.val 1 := by decide
example : F32.clamp (F32.val (-1)) (F32.val 0) (F32.val 1) = F32.val 0 := by decide
example : F32.clamp F32.negInf (F32.val 0) (F32.val 1) = F32.val 0 := by decide
example : F32.clamp F32.posInf (F32.val 0) (F32.val 1) = F32.val 1 := by decide

/-- The actor invariant behind the spec's Playing state: whenever
`start_time` is set, the sink exists and is unpaused. -/
def PlayingInv (s : AudioThreadState) : Prop :=
  ∀ start, s.start_time = some start → ∃ sk, s.sink = some sk ∧ sk.paused = false

theorem handle_command_sink_isSome (s : AudioThreadState) (now : Nat)
    (cmd : AudioCommand) (h : s.sink.isSome) :
    (s.handle_command now cmd).sink.isSome := by
  rcases s with ⟨os, ct, st, po, vol⟩
  cases os with
  | none => simp at h
  | some sk =>
    cases cmd with
    | play res track => cases res <;> simp [AudioThreadState.handle_command]
    | pause =>
      simp only [AudioThreadState.handle_command]
      split <;> simp
    | resume => simp [AudioThreadState.handle_command]
    | stop => simp [AudioThreadState.handle_command]
    | seek p => simp [AudioThreadState.handle_command]
    | setVolume v => simp [AudioThreadState.handle_command]
    | getStatus => simp [AudioThreadState.handle_command]

theorem handle_command_playingInv (s : AudioThreadState) (now : Nat)
    (cmd : AudioCommand) (h : PlayingInv s) :
    PlayingInv (s.handle_command now cmd) := by
  rcases s with ⟨os, ct, st, po, vol⟩
  cases os with
  | none =>
    cases cmd with
    | play res track => cases res <;> simpa [AudioThreadState.handle_command] using h
    | pause => simpa [AudioThreadState.handle_command] using h
    | resume => simpa [AudioThreadState.handle_command] using h
    | stop => simpa [AudioThreadState.handle_command] using h
    | seek p => simpa [AudioThreadState.handle_command] using h
    | setVolume v => simpa [AudioThreadState.handle_command] using h
    | getStatus => simpa [AudioThreadState.handle_command] using h
  | some sk =>
    cases cmd with
    | play res track =>
      cases res with
      | openErr => simpa [AudioThreadState.handle_command] using h
      | decodeErr => simpa [AudioThreadState.handle_command] using h
      | ok source =>
        intro start hstart
        exact ⟨_, rfl, rfl⟩
    | pause =>
      simp only [AudioThreadState.handle_command]
      split
      · intro start hstart
        simp at hstart
      · exact h
    | resume =>
      intro start hstart
      exact ⟨_, rfl, rfl⟩
    | stop =>
      intro start hstart
      simp [AudioThreadState.handle_command] at hstart
    | seek p => simpa [AudioThreadState.handle_command] using h
    | setVolume v =>
      intro start hstart
      simp only [AudioThreadState.handle_command] at hstart ⊢
      exact h start hstart
    | getStatus => simpa [AudioThreadState.handle_command] using h

theorem reachable_sink_isSome (s : AudioThreadState) (h : Reachable s) :
    s.sink.isSome := by
  induction h with
  | init => rfl
  | step s now cmd hr ih => exact handle_command_sink_isSome s now cmd ih

theorem reachable_playingInv (s : AudioThreadState) (h : Reachable s) :
    PlayingInv s := by
  induction h with
  | init => intro start hstart; simp [AudioThreadState.new] at hstart
  | step s now cmd hr ih => exact handle_command_playingInv s now cmd ih

/-- C1: from any reachable state with playback active (`start_time` set),
processing Pause at time `t1` and then Resume at time `t2`, with nothing in
between, yields a state whose position read at `t2` (immediately after the
Resume) equals the position read at `t1` (immediately before the Pause):
pausing neither loses nor gains elapsed time. -/
theorem C1_pause_resume_preserves_position
    (s : AudioThreadState) (t1 t2 start : Nat) (hr : Reachable s)
    (hst : s.start_time = some start) :
    ((s.handle_command t1 .pause).handle_command t2 .resume).position t2
      = s.position t1 := by
  obtain ⟨sk, hsk, hp⟩ := reachable_playingInv s hr start hst
  rcases s with ⟨os, ct, st, po, vol⟩
  simp only at hsk hst
  subst hsk hst
  simp [AudioThreadState.handle_command, AudioThreadState.is_playing, hp,
    AudioThreadState.position, Sink.pause, Sink.play, Nat.sub_self,
    Nat.add_comm]

/-- C1 witness: Play at 5, Pause at 7, Resume at 42; the position read
right after the Resume equals the position read right before the Pause. -/
theorem C1_witness :
    (((AudioThreadState.new.handle_command 5
          (.play (.ok 0) (some { path := "a", title := "a" }))).handle_command
        7 .pause).handle_command 42 .resume).position 42
      = (AudioThreadState.new.handle_command 5
          (.play (.ok 0) (some { path := "a", title := "a" }))).position 7 :=
  C1_pause_resume_preserves_position _ 7 42 5
    (Reachable.step _ 5 _ Reachable.init) rfl

/-- C2: from any reachable prior state, after Stop the position reads 0 at
every later query time, `current_track` is cleared, `start_time` is cleared
and `pause_offset` is reset to zero. -/
theorem C2_stop_resets (s : AudioThreadState) (now t : Nat) (hr : Reachable s) :
    (s.handle_command now .stop).position t = 0
    ∧ (s.handle_command now .stop).current_track = none
    ∧ (s.handle_command now .stop).start_time = none
    ∧ (s.handle_command now .stop).pause_offset = 0 := by
  have hs := reachable_sink_isSome s hr
  rcases s with ⟨os, ct, st, po, vol⟩
  cases os with
  | none => simp at hs
  | some sk =>
    simp [AudioThreadState.handle_command, AudioThreadState.position]

/-- C2 witness: Stop on a state that is playing with a nonzero offset. -/
theorem C2_witness :
    (((AudioThreadState.new.handle_command 5
          (.play (.ok 3) none)).handle_command 9 .stop).position 11 = 0)
    ∧ ((AudioThreadState.new.handle_command 5
          (.play (.ok 3) none)).handle_command 9 .stop).current_track = none
    ∧ ((AudioThreadState.new.handle_command 5
          (.play (.ok 3) none)).handle_command 9 .stop).start_time = none
    ∧ ((AudioThreadState.new.handle_command 5
          (.play (.ok 3) none)).handle_command 9 .stop).pause_offset = 0 :=
  C2_stop_resets _ 9 11 (Reachable.step _ 5 _ Reachable.init)

/-- C3: a Play command that fails at the file-open step or at the decode
step leaves the whole actor state exactly unchanged (sink contents,
`current_track`, `start_time`, `pause_offset`, `volume`), so the status
snapshot at any query time is also unchanged: the failure is only logged,
never turned into a success status. -/
theorem C3_play_failure_leaves_state (s : AudioThreadState) (now t : Nat)
    (track : Option Track) :
    s.handle_command now (.play .openErr track) = s
    ∧ s.handle_command now (.play .decodeErr track) = s
    ∧ (s.handle_command now (.play .openErr track)).statusSnapshot t
        = s.statusSnapshot t
    ∧ (s.handle_command now (.play .decodeErr track)).statusSnapshot t
        = s.statusSnapshot t :=
  ⟨rfl, rfl, rfl, rfl⟩

/-- C4 counterexample: the freshly started actor is reachable, has no
current track and no start time, yet its status snapshot reports
`playing = true` (the sink exists and is not paused), contradicting the
claim that `playing` is true exactly when `start_time` is set and that a
track-less state reports `playing = false`. -/
theorem C4_counterexample :
    Reachable AudioThreadState.new
    ∧ AudioThreadState.new.current_track = none
    ∧ AudioThreadState.new.start_time = none
    ∧ (AudioThreadState.new.statusSnapshot 0).playing = true :=
  ⟨Reachable.init, rfl, rfl, rfl⟩

/-- C4 amended: in every reachable state the snapshot's `playing` flag is
computed from the sink's paused flag, not from `start_time`; whenever
`start_time` is set the snapshot does report `playing = true`, but the
converse fails: the freshly started actor (no track, no start time,
unpaused sink) reports `playing = true`.  The snapshot's track is always
`current_track`, and with `start_time` unset the position is taken from
`pause_offset` alone. -/
theorem C4_playing_flag (s : AudioThreadState) (now : Nat) (hr : Reachable s) :
    (∀ start, s.start_time = some start → (s.statusSnapshot now).playing = true)
    ∧ (s.statusSnapshot now).track = s.current_track
    ∧ (s.start_time = none →
        (s.statusSnapshot now).position_ms = s.pause_offset / 1000000 % 2 ^ 64)
    ∧ (AudioThreadState.new.statusSnapshot now).playing = true := by
  refine ⟨?_, rfl, ?_, rfl⟩
  · intro start hst
    obtain ⟨sk, hsk, hp⟩ := reachable_playingInv s hr start hst
    simp [AudioThreadState.statusSnapshot, AudioThreadState.is_playing, hsk, hp]
  · intro h
    simp [AudioThreadState.statusSnapshot, AudioThreadState.position, h]

/-- C4 witness: the amended theorem applied to the paused state reached by
Play at 5 then Pause at 9, queried at 12. -/
theorem C4_witness :
    (((AudioThreadState.new.handle_command 5
          (.play (.ok 0) none)).handle_command 9 .pause).statusSnapshot 12).track
      = ((AudioThreadState.new.handle_command 5
          (.play (.ok 0) none)).handle_command 9 .pause).current_track
    ∧ (((AudioThreadState.new.handle_command 5
          (.play (.ok 0) none)).handle_command 9 .pause).statusSnapshot 12).position_ms
      = ((AudioThreadState.new.handle_command 5
          (.play (.ok 0) none)).handle_command 9 .pause).pause_offset / 1000000 % 2 ^ 64 := by
  have h := C4_playing_flag
    ((AudioThreadState.new.handle_command 5
        (.play (.ok 0) none)).handle_command 9 .pause) 12
    (Reachable.step _ 9 _ (Reachable.step _ 5 _ Reachable.init))
  exact ⟨h.2.1, h.2.2.1 (by decide)⟩

/-- Any non-NaN input clamped by the Rust `f32::clamp` against `[0, 1]`
lands in the unit interval. -/
theorem F32.clamp_inUnit (v : F32) (h : v ≠ F32.nan) :
    F32.inUnit (F32.clamp v (F32.val 0) (F32.val 1)) := by
  cases v with
  | nan => exact absurd rfl h
  | negInf => decide
  | posInf => decide
  | val q =>
    by_cases h0 : q < 0
    · have hlt : F32.lt (F32.val q) (F32.val 0) = true := decide_eq_true h0
      have hlt1 : F32.lt (F32.val 1) (F32.val 0) = false := by decide
      have hc : F32.clamp (F32.val q) (F32.val 0) (F32.val 1) = F32.val 0 := by
        simp [F32.clamp, hlt, hlt1]
      rw [hc]
      decide
    · have hlt : F32.lt (F32.val q) (F32.val 0) = false := decide_eq_false h0
      by_cases h1 : (1 : ℚ) < q
      · have hlt1 : F32.lt (F32.val 1) (F32.val q) = true := decide_eq_true h1
        have hc : F32.clamp (F32.val q) (F32.val 0) (F32.val 1) = F32.val 1 := by
          simp [F32.clamp, hlt, hlt1]
        rw [hc]
        decide
      · have hlt1 : F32.lt (F32.val 1) (F32.val q) = false := decide_eq_false h1
        have hc : F32.clamp (F32.val q) (F32.val 0) (F32.val 1) = F32.val q := by
          simp [F32.clamp, hlt, hlt1]
        rw [hc]
        exact ⟨decide_eq_true (le_of_not_lt h0), decide_eq_true (le_of_not_lt h1)⟩

/-- Every command other than SetVolume leaves the stored volume unchanged. -/
theorem handle_command_volume_eq (s : AudioThreadState) (now : Nat)
    (cmd : AudioCommand) (h : ∀ w, cmd ≠ AudioCommand.setVolume w) :
    (s.handle_command now cmd).volume = s.volume := by
  rcases s with ⟨os, ct, st, po, vol⟩
  cases cmd with
  | play res track =>
    cases res with
    | openErr => rfl
    | decodeErr => rfl
    | ok source => cases os <;> rfl
  | pause =>
    cases os with
    | none => rfl
    | some sk =>
      simp only [AudioThreadState.handle_command]
      split <;> rfl
  | resume => cases os <;> rfl
  | stop => cases os <;> rfl
  | seek p => rfl
  | setVolume w => exact absurd rfl (h w)
  | getStatus => rfl

/-- C5 counterexample: `SetVolume(NaN)` on the freshly started actor
stores NaN — Rust's `f32::clamp` propagates NaN — and NaN does not lie in
`[0, 1]`, so the claimed invariant "the stored volume lies in [0.0, 1.0]
in every reachable state" fails at this reachable state. -/
theorem C5_counterexample :
    Reachable (AudioThreadState.new.handle_command 0 (.setVolume F32.nan))
    ∧ (AudioThreadState.new.handle_command 0 (.setVolume F32.nan)).volume = F32.nan
    ∧ ¬ F32.inUnit (AudioThreadState.new.handle_command 0 (.setVolume F32.nan)).volume :=
  ⟨Reachable.step _ 0 _ Reachable.init, rfl, by decide⟩

/-- C5 amended: in every reachable state, SetVolume(v) stores exactly
`clamp(v, 0, 1)` (Rust semantics, so NaN is stored as NaN); for every
non-NaN v the stored result lies in `[0, 1]`; the volume starts at 1.0,
which lies in `[0, 1]`; and every command other than a SetVolume carrying
NaN preserves membership of the stored volume in `[0, 1]`. -/
theorem C5_setVolume_clamps (s : AudioThreadState) (now : Nat) (v : F32)
    (hr : Reachable s) :
    (s.handle_command now (.setVolume v)).volume
        = F32.clamp v (F32.val 0) (F32.val 1)
    ∧ (v ≠ F32.nan → F32.inUnit (s.handle_command now (.setVolume v)).volume)
    ∧ F32.inUnit AudioThreadState.new.volume
    ∧ (∀ cmd : AudioCommand, (∀ w, cmd = .setVolume w → w ≠ F32.nan) →
        F32.inUnit s.volume → F32.inUnit (s.handle_command now cmd).volume) := by
  have hs := reachable_sink_isSome s hr
  have hvol : (s.handle_command now (.setVolume v)).volume
      = F32.clamp v (F32.val 0) (F32.val 1) := by
    rcases s with ⟨os, ct, st, po, vol⟩
    cases os with
    | none => simp at hs
    | some sk => rfl
  refine ⟨hvol, ?_, by decide, ?_⟩
  · intro hnan
    rw [hvol]
    exact F32.clamp_inUnit v hnan
  · intro cmd hcmd hunit
    by_cases hset : ∃ w, cmd = AudioCommand.setVolume w
    · obtain ⟨w, rfl⟩ := hset
      have hw := hcmd w rfl
      rcases s with ⟨os, ct, st, po, vol⟩
      cases os with
      | none => exact hunit
      | some sk => exact F32.clamp_inUnit w hw
    · rw [handle_command_volume_eq s now cmd (by
        intro w hw
        exact hset ⟨w, hw⟩)]
      exact hunit

/-- C5 witness: the amended theorem applied at the freshly started actor
with the out-of-range request `-inf`, which is stored as 0. -/
theorem C5_witness :
    (AudioThreadState.new.handle_command 0 (.setVolume F32.negInf)).volume
        = F32.clamp F32.negInf (F32.val 0) (F32.val 1)
    ∧ F32.inUnit (AudioThreadState.new.handle_command 0 (.setVolume F32.negInf)).volume := by
  obtain ⟨h1, h2, h3, h4⟩ :=
    C5_setVolume_clamps AudioThreadState.new 0 F32.negInf Reachable.init
  exact ⟨h1, h2 (by decide)⟩

/-- The elapsed nanosecond count whose millisecond image `position`
reports: `(now - start_time) + pause_offset` when `start_time` is set,
`pause_offset` otherwise. -/
def positionNanos (s : AudioThreadState) (now : Nat) : Nat :=
  match s.start_time with
  | some start => (now - start) + s.pause_offset
  | none => s.pause_offset

/-- The spec's formula for the position clock, written from the spec's
words: if `start_time` is set, `position = now - start_time + pause_offset`
in milliseconds; otherwise `position = pause_offset` in milliseconds. -/
def position_spec (s : AudioThreadState) (now : Nat) : Nat :=
  match s.start_time with
  | some start => ((now - start) + s.pause_offset) / 1000000
  | none => s.pause_offset / 1000000

/-- C6: `position` is a pure function of the playback state and the
query-time clock reading, and whenever the elapsed time fits in a `u64`
millisecond count (the code truncates `as_millis()` with `as u64`) it
equals the spec's formula: `(now - start_time) + pause_offset` in
milliseconds when `start_time` is set, `pause_offset` in milliseconds
otherwise. -/
theorem C6_position_formula (s : AudioThreadState) (now : Nat)
    (h : positionNanos s now < 2 ^ 64 * 1000000) :
    s.position now = position_spec s now := by
  rcases s with ⟨os, ct, st, po, vol⟩
  cases st with
  | none =>
    simp only [positionNanos] at h
    simp only [AudioThreadState.position, position_spec]
    omega
  | some start =>
    simp only [positionNanos] at h
    simp only [AudioThreadState.position, position_spec]
    omega

/-- C6 witness: a paused-then-queried state with 2.5 ms of accumulated
offset, queried 7 ms after the recorded start. -/
theorem C6_witness :
    AudioThreadState.position
        { sink := some { queue := [], paused := false }
          current_track := none
          start_time := some 3
          pause_offset := 2500000
          volume := F32.val 1 } 7000003
      = position_spec
        { sink := some { queue := [], paused := false }
          current_track := none
          start_time := some 3
          pause_offset := 2500000
          volume := F32.val 1 } 7000003 :=
  C6_position_formula _ 7000003 (by decide)

/-- C7: GetStatus changes no field of the playback state, and two
snapshots of the same state taken at query times `t1 ≤ t2` agree on
`playing`, `track`, `duration_ms` and `volume`, while `position_ms` is
monotonically non-decreasing (within the `u64` millisecond range the code
truncates to). -/
theorem C7_getStatus_pure (s : AudioThreadState) (now t1 t2 : Nat)
    (h12 : t1 ≤ t2) (hb : positionNanos s t2 < 2 ^ 64 * 1000000) :
    s.handle_command now .getStatus = s
    ∧ (s.statusSnapshot t1).playing = (s.statusSnapshot t2).playing
    ∧ (s.statusSnapshot t1).track = (s.statusSnapshot t2).track
    ∧ (s.statusSnapshot t1).duration_ms = (s.statusSnapshot t2).duration_ms
    ∧ (s.statusSnapshot t1).volume = (s.statusSnapshot t2).volume
    ∧ (s.statusSnapshot t1).position_ms ≤ (s.statusSnapshot t2).position_ms := by
  refine ⟨rfl, rfl, rfl, rfl, rfl, ?_⟩
  rcases s with ⟨os, ct, st, po, vol⟩
  cases st with
  | none => exact Nat.le_refl _
  | some start =>
    simp only [positionNanos] at hb
    simp only [AudioThreadState.statusSnapshot, AudioThreadState.position]
    omega

/-- C7 witness: two status reads of a playing state 5 ms apart. -/
theorem C7_witness :
    AudioThreadState.handle_command
        { sink := some { queue := [7], paused := false }
          current_track := some { path := "a", title := "a" }
          start_time := some 1000
          pause_offset := 4000000
          volume := F32.val 1 } 2000 AudioCommand.getStatus
      = { sink := some { queue := [7], paused := false }
          current_track := some { path := "a", title := "a" }
          start_time := some 1000
          pause_offset := 4000000
          volume := F32.val 1 }
    ∧ (AudioThreadState.statusSnapshot
        { sink := some { queue := [7], paused := false }
          current_track := some { path := "a", title := "a" }
          start_time := some 1000
          pause_offset := 4000000
          volume := F32.val 1 } 2000).playing
      = (AudioThreadState.statusSnapshot
        { sink := some { queue := [7], paused := false }
          current_track := some { path := "a", title := "a" }
          start_time := some 1000
          pause_offset := 4000000
          volume := F32.val 1 } 5002000).playing
    ∧ (AudioThreadState.statusSnapshot
        { sink := some { queue := [7], paused := false }
          current_track := some { path := "a", title := "a" }
          start_time := some 1000
          pause_offset := 4000000
          volume := F32.val 1 } 2000).track
      = (AudioThreadState.statusSnapshot
        { sink := some { queue := [7], paused := false }
          current_track := some { path := "a", title := "a" }
          start_time := some 1000
          pause_offset := 4000000
          volume := F32.val 1 } 5002000).track
    ∧ (AudioThreadState.statusSnapshot
        { sink := some { queue := [7], paused := false }
          current_track := some { path := "a", title := "a" }
          start_time := some 1000
          pause_offset := 4000000
          volume := F32.val 1 } 2000).duration_ms
      = (AudioThreadState.statusSnapshot
        { sink := some { queue := [7], paused := false }
          current_track := some { path := "a", title := "a" }
          start_time := some 1000
          pause_offset := 4000000
          volume := F32.val 1 } 5002000).duration_ms
    ∧ (AudioThreadState.statusSnapshot
        { sink := some { queue := [7], paused := false }
          current_track := some { path := "a", title := "a" }
          start_time := some 1000
          pause_offset := 4000000
          volume := F32.val 1 } 2000).volume
      = (AudioThreadState.statusSnapshot
        { sink := some { queue := [7], paused := false }
          current_track := some { path := "a", title := "a" }
          start_time := some 1000
          pause_offset := 4000000
          volume := F32.val 1 } 5002000).volume
    ∧ (AudioThreadState.statusSnapshot
        { sink := some { queue := [7], paused := false }
          current_track := some { path := "a", title := "a" }
          start_time := some 1000
          pause_offset := 4000000
          volume := F32.val 1 } 2000).position_ms
      ≤ (AudioThreadState.statusSnapshot
        { sink := some { queue := [7], paused := false }
          current_track := some { path := "a", title := "a" }
          start_time := some 1000
          pause_offset := 4000000
          volume := F32.val 1 } 5002000).position_ms :=
  C7_getStatus_pure _ 2000 2000 5002000 (by decide) (by decide)

/-- C8: a Seek command leaves the entire actor state unchanged (the arm
only logs a warning), and the `seek` route surfaces the outcome as
HTTP 501 Not Implemented whenever the command was delivered, 500 on a
channel failure — never 200, so never a silent success. -/
theorem C8_seek_not_implemented (s : AudioThreadState) (now p : Nat)
    (delivered : Bool) :
    s.handle_command now (.seek p) = s
    ∧ seekRouteStatus true = 501
    ∧ seekRouteStatus delivered ≠ 200 := by
  refine ⟨rfl, rfl, ?_⟩
  cases delivered <;> decide

/-- C9: every value of the `Track` type of src/lib.rs is fully determined
by its `path` and `title` fields — the structure carries no artist and no
album field, so no catalog ordering can be computed from per-track artist
or album data. -/
theorem C9_track_fields (t : Track) :
    t = { path := t.path, title := t.title } :=
  rfl

/-- C10: the `duration_ms` field is `None` in every status snapshot the
actor computes, in the `Default` instance of `PlaybackStatus`, and in the
facade's fallback status used when the actor is unreachable. -/
theorem C10_duration_none (s : AudioThreadState) (now : Nat) :
    (s.statusSnapshot now).duration_ms = none
    ∧ PlaybackStatus.default.duration_ms = none
    ∧ statusFallback.duration_ms = none :=
  ⟨rfl, rfl, rfl⟩
